import Mathlib

/-!
Shallow embedding of the remote diagnostic collection pipeline of
`nexus.py` (connect_switch, execute_command, collect_switch_data,
truncate_text and the report formatting line of analyze_with_ai).

The SSH world (paramiko) is modelled by a behavior oracle: whether the
connect call raises, what each dispatched command yields on the remote
streams, and whether an unexpected fault (one not caught by
execute_command's handler, e.g. raised by the logging call at the top of
the collector loop) interrupts the loop at a given command.  Logging side
effects and the session close are recorded in an explicit event trace.
A raised Python exception is modelled by the `Except.error` branch.
-/

namespace Nexus

/-- Result of dispatching one command on the remote shell: either the two
decoded streams (stdout, stderr) are read back, or the dispatch/read
raises a transport, timeout or decode fault with a message. -/
inductive ExecOutcome where
  | streams (stdout stderr : String)
  | fault (msg : String)
deriving DecidableEq

/-- Connection state of an SSH session handle. -/
inductive SessState where
  | Open
  | Closed
deriving DecidableEq

/-- An SSH session handle: its state and the remote behavior of each
command dispatched while it is open. -/
structure Session where
  state : SessState
  exec : String → ExecOutcome

/-- Logging and resource side effects of the pipeline, in order. -/
inductive Event where
  | connOkLog (ip : String)
  | connErrLog (ip msg : String)
  | execInfoLog (cmd : String)
  | warnLog (cmd err : String)
  | cmdErrLog (cmd msg : String)
  | cmdFailLog (cmd : String)
  | closeLog
deriving DecidableEq

/-- Environment oracle for one run: `connect ip u p = some msg` means the
underlying `ssh.connect` raises with that message, `none` means it
succeeds; `exec` is the remote behavior of each command; `loopFault cmd =
some msg` injects an unexpected fault that escapes execute_command's
handler while the collector loop processes `cmd` (e.g. the logger call
raising), `none` means the iteration runs normally. -/
structure SwitchBehavior where
  connect : String → String → String → Option String
  exec : String → ExecOutcome
  loopFault : String → Option String

/-- Embedding of `connect_switch` (nexus.py lines 28-48): try to connect;
on success log and return the client, on any exception log the error and
return None. -/
def connect_switch (ip username password : String) (b : SwitchBehavior) :
    Option Session × List Event :=
  match b.connect ip username password with
  | none => (some ⟨SessState.Open, b.exec⟩, [Event.connOkLog ip])
  | some e => (none, [Event.connErrLog ip e])

/-- Transport model for `ssh.exec_command`: paramiko's SSHClient raises
SSHException "SSH session not active" when no session is open, otherwise
the remote behavior of the session decides the outcome. -/
def sshDispatch (sess : Session) (cmd : String) : ExecOutcome :=
  match sess.state with
  | SessState.Closed => ExecOutcome.fault "SSH session not active"
  | SessState.Open => sess.exec cmd

/-- Embedding of `execute_command` (nexus.py lines 50-71): dispatch the
command and read both streams; log a warning when stderr is non-empty and
return the decoded stdout; on any exception log the error and return
None. -/
def execute_command (sess : Session) (cmd : String) : Option String × List Event :=
  match sshDispatch sess cmd with
  | ExecOutcome.streams out err =>
      (some out, if err = "" then [] else [Event.warnLog cmd err])
  | ExecOutcome.fault e => (none, [Event.cmdErrLog cmd e])

/-- The fixed command list of `collect_switch_data` (nexus.py lines 90-98). -/
def commands : List String :=
  ["show version",
   "show system resources",
   "show environment",
   "show logging log | last 100",
   "show interface status",
   "show ip interface brief",
   "show processes cpu history"]

/-- The per-command loop of `collect_switch_data` (nexus.py lines
101-107): for each command log the info line, run the executor, record
the output when it is not None, otherwise log the failure and continue.
Returns the recorded entries, the emitted events, and `some msg` when an
unexpected fault interrupted the loop (remaining commands unattempted,
recorded entries discarded by the raise). -/
def runLoop (sess : Session) (lf : String → Option String) :
    List String → List (String × String) × List Event × Option String
  | [] => ([], [], none)
  | cmd :: rest =>
    match lf cmd with
    | some e => ([], [Event.execInfoLog cmd], some e)
    | none =>
      match (execute_command sess cmd).1 with
      | some out =>
        ((cmd, out) :: (runLoop sess lf rest).1,
         Event.execInfoLog cmd :: ((execute_command sess cmd).2 ++ (runLoop sess lf rest).2.1),
         (runLoop sess lf rest).2.2)
      | none =>
        ((runLoop sess lf rest).1,
         Event.execInfoLog cmd ::
           ((execute_command sess cmd).2 ++ Event.cmdFailLog cmd :: (runLoop sess lf rest).2.1),
         (runLoop sess lf rest).2.2)

/-- Embedding of `collect_switch_data` (nexus.py lines 73-112): connect
(returning None on failure), run the command loop under try/finally so
the session is closed on every exit path, then return the data dict if
non-empty and None otherwise; an unexpected loop fault propagates to the
caller (as `Except.error`) after the finally block closes the session. -/
def collect_switch_data (ip username password : String) (b : SwitchBehavior) :
    Except String (Option (List (String × String))) × List Event :=
  match (connect_switch ip username password b).1 with
  | none => (Except.ok none, (connect_switch ip username password b).2)
  | some sess =>
    match (runLoop sess b.loopFault commands).2.2 with
    | none =>
      (Except.ok (if (runLoop sess b.loopFault commands).1.isEmpty then none
                  else some (runLoop sess b.loopFault commands).1),
       (connect_switch ip username password b).2 ++
         (runLoop sess b.loopFault commands).2.1 ++ [Event.closeLog])
    | some e =>
      (Except.error e,
       (connect_switch ip username password b).2 ++
         (runLoop sess b.loopFault commands).2.1 ++ [Event.closeLog])

/-- The fixed truncation marker appended by `truncate_text`. -/
def trunc_marker : String := "\n\n[TRUNCADO: dados demais para análise completa]"

/-- Embedding of `truncate_text` (nexus.py lines 114-127): when the text
is longer than max_chars, keep the first max_chars characters and append
the fixed marker, otherwise return the text unchanged.  Python string
slicing is character-based, modelled by `List.take` on the data. -/
def truncate_text (text : String) (max_chars : Nat) : String :=
  if text.length > max_chars then String.mk (text.data.take max_chars) ++ trunc_marker
  else text

/-- Embedding of the report formatting line of `analyze_with_ai`
(nexus.py line 166): join "cmd:\n output \n" blocks with newlines, in the
report's insertion order. -/
def formatted_data (data : List (String × String)) : String :=
  String.intercalate "\n" (data.map (fun p => p.1 ++ ":\n" ++ p.2 ++ "\n"))

/-- The three-way outcome classification of the specification. -/
inductive Outcome where
  | Ok
  | Warning
  | Failed
deriving DecidableEq

/-- Classification of a remote outcome following the specification's
words: a dispatch/read fault is Failed, non-empty stderr is Warning,
otherwise Ok. -/
def specOutcome : ExecOutcome → Outcome
  | ExecOutcome.streams _ err => if err = "" then Outcome.Ok else Outcome.Warning
  | ExecOutcome.fault _ => Outcome.Failed

/-- Whether an event is the stderr warning log of execute_command. -/
def isWarnEvent : Event → Bool
  | Event.warnLog _ _ => true
  | _ => false

/-- Outcome of one executor invocation as observable from its return
value and its logging: None is Failed, a logged stderr warning is
Warning, otherwise Ok. -/
def outcomeOf (r : Option String × List Event) : Outcome :=
  match r.1 with
  | none => Outcome.Failed
  | some _ => if r.2.any isWarnEvent then Outcome.Warning else Outcome.Ok

/-- Whether an event is the session close. -/
def isCloseEvent : Event → Bool
  | Event.closeLog => true
  | _ => false

/-- Number of session closes in a trace. -/
def closeCount (evs : List Event) : Nat := evs.countP (fun e => isCloseEvent e)

/-- The report entry the collector records for a command, if any: the
executor returns non-None exactly when the dispatch yields streams, and
the entry is keyed by the command text with the decoded stdout. -/
def succEntry (exec : String → ExecOutcome) (c : String) : Option (String × String) :=
  match exec c with
  | ExecOutcome.streams out _ => some (c, out)
  | ExecOutcome.fault _ => none

/-- Whether the executor returns non-None output for a command. -/
def isSucc (exec : String → ExecOutcome) (c : String) : Bool :=
  match exec c with
  | ExecOutcome.streams _ _ => true
  | ExecOutcome.fault _ => false

/-- Stdout-agreement of two remote outcomes: both fault, or both yield
streams with the same stdout (stderr and fault messages free). -/
def sameStdout : ExecOutcome → ExecOutcome → Prop
  | ExecOutcome.streams o1 _, ExecOutcome.streams o2 _ => o1 = o2
  | ExecOutcome.fault _, ExecOutcome.fault _ => True
  | _, _ => False

theorem connect_switch_ok (ip username password : String) (b : SwitchBehavior)
    (h : b.connect ip username password = none) :
    connect_switch ip username password b =
      (some ⟨SessState.Open, b.exec⟩, [Event.connOkLog ip]) := by
  simp [connect_switch, h]

theorem connect_switch_err (ip username password : String) (b : SwitchBehavior)
    (e : String) (h : b.connect ip username password = some e) :
    connect_switch ip username password b = (none, [Event.connErrLog ip e]) := by
  simp [connect_switch, h]

theorem execute_command_close_free (sess : Session) (cmd : String) :
    closeCount (execute_command sess cmd).2 = 0 := by
  unfold execute_command
  cases sshDispatch sess cmd with
  | streams out err =>
    by_cases he : err = "" <;> simp [he, closeCount, isCloseEvent]
  | fault e => simp [closeCount, isCloseEvent]

theorem runLoop_close_free (sess : Session) (lf : String → Option String)
    (cmds : List String) : closeCount (runLoop sess lf cmds).2.1 = 0 := by
  induction cmds with
  | nil => simp [runLoop, closeCount]
  | cons cmd rest ih =>
    cases hl : lf cmd with
    | some e => simp [runLoop, hl, closeCount, isCloseEvent]
    | none =>
      have hx := execute_command_close_free sess cmd
      cases hr : (execute_command sess cmd).1 with
      | some out =>
        simp [runLoop, hl, hr, closeCount, List.countP_append, List.countP_cons,
          isCloseEvent] at hx ih ⊢
        exact ⟨hx, ih⟩
      | none =>
        simp [runLoop, hl, hr, closeCount, List.countP_append, List.countP_cons,
          isCloseEvent] at hx ih ⊢
        exact ⟨hx, ih⟩

theorem runLoop_normal (exec : String → ExecOutcome) (lf : String → Option String)
    (cmds : List String) (h : ∀ c ∈ cmds, lf c = none) :
    (runLoop ⟨SessState.Open, exec⟩ lf cmds).1 = cmds.filterMap (succEntry exec) ∧
    (runLoop ⟨SessState.Open, exec⟩ lf cmds).2.2 = none := by
  induction cmds with
  | nil => simp [runLoop]
  | cons cmd rest ih =>
    have hc : lf cmd = none := h cmd (List.mem_cons_self cmd rest)
    have ih2 := ih (fun c hm => h c (List.mem_cons_of_mem _ hm))
    cases he : exec cmd with
    | streams out err =>
      have hx : (execute_command ⟨SessState.Open, exec⟩ cmd).1 = some out := by
        simp [execute_command, sshDispatch, he]
      simp [runLoop, hc, hx, succEntry, he, ih2.1, ih2.2]
    | fault e =>
      have hx : (execute_command ⟨SessState.Open, exec⟩ cmd).1 = none := by
        simp [execute_command, sshDispatch, he]
      simp [runLoop, hc, hx, succEntry, he, ih2.1, ih2.2]

theorem filterMap_succEntry_keys (exec : String → ExecOutcome) (cmds : List String) :
    (cmds.filterMap (succEntry exec)).map Prod.fst = cmds.filter (fun c => isSucc exec c) := by
  induction cmds with
  | nil => simp
  | cons cmd rest ih =>
    cases he : exec cmd with
    | streams out err => simp [succEntry, isSucc, he, ih]
    | fault e => simp [succEntry, isSucc, he, ih]

theorem filterMap_succEntry_length (exec : String → ExecOutcome) (cmds : List String) :
    (cmds.filterMap (succEntry exec)).length = cmds.countP (fun c => isSucc exec c) := by
  have h := congrArg List.length (filterMap_succEntry_keys exec cmds)
  simpa [List.countP_eq_length_filter] using h

theorem collect_trace_open (ip username password : String) (b : SwitchBehavior)
    (h : b.connect ip username password = none) :
    (collect_switch_data ip username password b).2 =
      Event.connOkLog ip ::
        (runLoop ⟨SessState.Open, b.exec⟩ b.loopFault commands).2.1 ++ [Event.closeLog] := by
  have hc := connect_switch_ok ip username password b h
  unfold collect_switch_data
  rw [hc]
  cases hf : (runLoop ⟨SessState.Open, b.exec⟩ b.loopFault commands).2.2 <;> simp [hf]

theorem collect_result_no_fault (ip username password : String) (b : SwitchBehavior)
    (h : b.connect ip username password = none)
    (hlf : ∀ c ∈ commands, b.loopFault c = none) :
    (collect_switch_data ip username password b).1 =
      Except.ok (if (commands.filterMap (succEntry b.exec)).isEmpty then none
                 else some (commands.filterMap (succEntry b.exec))) := by
  have hc := connect_switch_ok ip username password b h
  have hn := runLoop_normal b.exec b.loopFault commands hlf
  unfold collect_switch_data
  rw [hc]
  simp [hn.1, hn.2]

theorem collect_close_count (ip username password : String) (b : SwitchBehavior)
    (h : b.connect ip username password = none) :
    closeCount (collect_switch_data ip username password b).2 = 1 := by
  have ht := collect_trace_open ip username password b h
  have hl := runLoop_close_free ⟨SessState.Open, b.exec⟩ b.loopFault commands
  rw [ht, closeCount, List.countP_append, List.countP_cons]
  rw [closeCount] at hl
  rw [hl]
  simp [List.countP_cons, isCloseEvent]

theorem collect_connect_err_eq (ip username password e : String) (b : SwitchBehavior)
    (h : b.connect ip username password = some e) :
    collect_switch_data ip username password b =
      (Except.ok none, [Event.connErrLog ip e]) := by
  have hc := connect_switch_err ip username password b e h
  unfold collect_switch_data
  rw [hc]

/-- C2: whenever the connection is successfully opened, the session close
runs exactly once before collect_switch_data returns, on every exit path
of the per-command loop — including when an unexpected fault interrupts
the loop mid-run — and the close is the last side effect of the run, so
the session never remains open past the collector's return. -/
theorem collect_closes_once (ip username password : String) (b : SwitchBehavior)
    (h : b.connect ip username password = none) :
    closeCount (collect_switch_data ip username password b).2 = 1 ∧
    (collect_switch_data ip username password b).2.getLast? = some Event.closeLog := by
  refine ⟨collect_close_count ip username password b h, ?_⟩
  rw [collect_trace_open ip username password b h, List.getLast?_concat]

/-- C2 witness: a run whose third command is interrupted by an unexpected
fault still closes the session exactly once, as the last side effect. -/
theorem collect_closes_once_witness :
    closeCount (collect_switch_data "10.0.0.1" "admin" "pw"
        ⟨fun _ _ _ => none, fun _ => ExecOutcome.streams "up" "",
         fun c => if c = "show environment" then some "logger disk full" else none⟩).2 = 1 ∧
    (collect_switch_data "10.0.0.1" "admin" "pw"
        ⟨fun _ _ _ => none, fun _ => ExecOutcome.streams "up" "",
         fun c => if c = "show environment" then some "logger disk full" else none⟩).2.getLast? =
      some Event.closeLog :=
  collect_closes_once "10.0.0.1" "admin" "pw"
    ⟨fun _ _ _ => none, fun _ => ExecOutcome.streams "up" "",
     fun c => if c = "show environment" then some "logger disk full" else none⟩ rfl

/-- C3: when opening the connection fails, collect_switch_data returns
None immediately: no command is dispatched, no report entry is
constructed, and the entire side-effect trace is the single logged
connect failure. -/
theorem collect_connect_failure (ip username password e : String) (b : SwitchBehavior)
    (h : b.connect ip username password = some e) :
    collect_switch_data ip username password b =
      (Except.ok none, [Event.connErrLog ip e]) :=
  collect_connect_err_eq ip username password e b h

/-- C3 witness: a rejected authentication yields None with only the
connect-failure log. -/
theorem collect_connect_failure_witness :
    collect_switch_data "10.0.0.1" "admin" "wrongpw"
        ⟨fun _ _ _ => some "Authentication failed", fun _ => ExecOutcome.streams "up" "",
         fun _ => none⟩ =
      (Except.ok none, [Event.connErrLog "10.0.0.1" "Authentication failed"]) :=
  collect_connect_failure "10.0.0.1" "admin" "wrongpw" "Authentication failed"
    ⟨fun _ _ _ => some "Authentication failed", fun _ => ExecOutcome.streams "up" "",
     fun _ => none⟩ rfl

/-- C4: when the connection succeeds but the executor returns None for
every command, collect_switch_data returns None (the CollectionError
result) rather than an empty report and still closes the session exactly
once; conversely any report it does return is non-empty. -/
theorem collect_all_failed_and_nonempty :
    (∀ (ip username password : String) (b : SwitchBehavior),
        b.connect ip username password = none →
        (∀ c ∈ commands, b.loopFault c = none) →
        (∀ c ∈ commands, isSucc b.exec c = false) →
        (collect_switch_data ip username password b).1 = Except.ok none ∧
        closeCount (collect_switch_data ip username password b).2 = 1) ∧
    (∀ (ip username password : String) (b : SwitchBehavior)
        (r : List (String × String)),
        (collect_switch_data ip username password b).1 = Except.ok (some r) → r ≠ []) := by
  constructor
  · intro ip username password b h hlf hfail
    refine ⟨?_, collect_close_count ip username password b h⟩
    rw [collect_result_no_fault ip username password b h hlf]
    have hemp : commands.filterMap (succEntry b.exec) = [] := by
      rw [List.filterMap_eq_nil_iff]
      intro c hm
      have := hfail c hm
      cases he : b.exec c with
      | streams out err => rw [isSucc, he] at this; simp at this
      | fault e => simp [succEntry, he]
    simp [hemp]
  · intro ip username password b r hr
    cases hcv : b.connect ip username password with
    | some e =>
      rw [collect_connect_err_eq ip username password e b hcv] at hr
      simp at hr
    | none =>
      have hc := connect_switch_ok ip username password b hcv
      unfold collect_switch_data at hr
      rw [hc] at hr
      simp only at hr
      cases hf : (runLoop ⟨SessState.Open, b.exec⟩ b.loopFault commands).2.2 with
      | some e => rw [hf] at hr; simp at hr
      | none =>
        rw [hf] at hr
        simp only at hr
        by_cases he : (runLoop ⟨SessState.Open, b.exec⟩ b.loopFault commands).1.isEmpty
        · rw [if_pos he] at hr; simp at hr
        · rw [if_neg he] at hr
          have : r = (runLoop ⟨SessState.Open, b.exec⟩ b.loopFault commands).1 := by
            injection hr with hr2
            injection hr2 with hr3
            exact hr3.symm
          rw [this]
          intro hnil
          exact he (by simp [hnil])

/-- C4 witness: a run in which all seven commands time out returns None
with one session close, and the non-emptiness part applied to a run in
which only the first command succeeds. -/
theorem collect_all_failed_and_nonempty_witness :
    ((collect_switch_data "10.0.0.1" "admin" "pw"
        ⟨fun _ _ _ => none, fun _ => ExecOutcome.fault "timed out", fun _ => none⟩).1 =
      Except.ok none ∧
     closeCount (collect_switch_data "10.0.0.1" "admin" "pw"
        ⟨fun _ _ _ => none, fun _ => ExecOutcome.fault "timed out", fun _ => none⟩).2 = 1) ∧
    ([("show version", "NXOS 7.0")] : List (String × String)) ≠ [] := by
  constructor
  · exact collect_all_failed_and_nonempty.1 "10.0.0.1" "admin" "pw"
      ⟨fun _ _ _ => none, fun _ => ExecOutcome.fault "timed out", fun _ => none⟩
      rfl (fun c _ => rfl) (by decide)
  · exact collect_all_failed_and_nonempty.2 "10.0.0.1" "admin" "pw"
      ⟨fun _ _ _ => none,
       fun c => if c = "show version" then ExecOutcome.streams "NXOS 7.0" ""
                else ExecOutcome.fault "timed out",
       fun _ => none⟩
      [("show version", "NXOS 7.0")] rfl

/-- C9: no exception of the underlying SSH operations escapes: a raising
connect makes connect_switch return None, a faulting dispatch makes
execute_command return None, and collect_switch_data returns normally
(never raises) whenever no fault outside the executor's handler is
injected into its loop, whatever connect and the remote commands do. -/
theorem no_exception_propagation :
    (∀ (ip username password e : String) (b : SwitchBehavior),
        b.connect ip username password = some e →
        (connect_switch ip username password b).1 = none) ∧
    (∀ (exec : String → ExecOutcome) (cmd e : String),
        exec cmd = ExecOutcome.fault e →
        (execute_command ⟨SessState.Open, exec⟩ cmd).1 = none) ∧
    (∀ (ip username password : String) (b : SwitchBehavior),
        (∀ c ∈ commands, b.loopFault c = none) →
        ∃ r, (collect_switch_data ip username password b).1 = Except.ok r) := by
  refine ⟨?_, ?_, ?_⟩
  · intro ip username password e b h
    simp [connect_switch, h]
  · intro exec cmd e h
    simp [execute_command, sshDispatch, h]
  · intro ip username password b hlf
    cases hcv : b.connect ip username password with
    | some e =>
      exact ⟨none, by rw [collect_connect_err_eq ip username password e b hcv]⟩
    | none =>
      exact ⟨_, collect_result_no_fault ip username password b hcv hlf⟩

/-- C9 witness: a run whose connect raises, a command whose dispatch
faults, and a faulting-everywhere run of the collector, each landing in
the None or normal-return branch. -/
theorem no_exception_propagation_witness :
    (connect_switch "10.0.0.1" "admin" "pw"
        ⟨fun _ _ _ => some "No route to host", fun _ => ExecOutcome.fault "x",
         fun _ => none⟩).1 = none ∧
    (execute_command ⟨SessState.Open, fun _ => ExecOutcome.fault "timed out"⟩
        "show version").1 = none ∧
    ∃ r, (collect_switch_data "10.0.0.1" "admin" "pw"
        ⟨fun _ _ _ => none, fun _ => ExecOutcome.fault "timed out", fun _ => none⟩).1 =
      Except.ok r :=
  ⟨no_exception_propagation.1 "10.0.0.1" "admin" "pw" "No route to host"
      ⟨fun _ _ _ => some "No route to host", fun _ => ExecOutcome.fault "x",
       fun _ => none⟩ rfl,
   no_exception_propagation.2.1 (fun _ => ExecOutcome.fault "timed out")
      "show version" "timed out" rfl,
   no_exception_propagation.2.2 "10.0.0.1" "admin" "pw"
      ⟨fun _ _ _ => none, fun _ => ExecOutcome.fault "timed out", fun _ => none⟩
      (fun _ _ => rfl)⟩

theorem collect_result_loop_ok (ip username password : String) (b : SwitchBehavior)
    (h : b.connect ip username password = none)
    (hf : (runLoop ⟨SessState.Open, b.exec⟩ b.loopFault commands).2.2 = none) :
    (collect_switch_data ip username password b).1 =
      Except.ok (if (runLoop ⟨SessState.Open, b.exec⟩ b.loopFault commands).1.isEmpty then none
                 else some (runLoop ⟨SessState.Open, b.exec⟩ b.loopFault commands).1) := by
  have hc := connect_switch_ok ip username password b h
  unfold collect_switch_data
  rw [hc]
  simp [hf]

theorem collect_result_loop_fault (ip username password : String) (b : SwitchBehavior)
    (e : String) (h : b.connect ip username password = none)
    (hf : (runLoop ⟨SessState.Open, b.exec⟩ b.loopFault commands).2.2 = some e) :
    (collect_switch_data ip username password b).1 = Except.error e := by
  have hc := connect_switch_ok ip username password b h
  unfold collect_switch_data
  rw [hc]
  simp [hf]

/-- C1 counterexample: with a succeeding connection and a remote that
faults on all seven fixed commands, exactly K = 0 commands succeed or
warn, yet collect_switch_data returns None — the failure result — and
not a report with zero entries, so the claim fails at K = 0. -/
theorem collect_report_entries_zero_case :
    commands.countP (fun c => isSucc (fun _ => ExecOutcome.fault "timed out") c) = 0 ∧
    (collect_switch_data "10.0.0.1" "admin" "pw"
        ⟨fun _ _ _ => none, fun _ => ExecOutcome.fault "timed out", fun _ => none⟩).1 =
      Except.ok none ∧
    (collect_switch_data "10.0.0.1" "admin" "pw"
        ⟨fun _ _ _ => none, fun _ => ExecOutcome.fault "timed out", fun _ => none⟩).1 ≠
      Except.ok (some []) := by
  refine ⟨by decide, rfl, ?_⟩
  intro hco
  have h1 : (Except.ok (none : Option (List (String × String))) :
      Except String (Option (List (String × String)))) = Except.ok (some []) := hco
  injection h1 with h2
  exact Option.noConfusion h2

/-- C1 (amended to require K ≥ 1; for K = 0 the collector returns None,
see the counterexample and C4): when the connection succeeds, the loop is
not interrupted, and K ≥ 1 of the fixed commands succeed or warn, the
collector returns a report containing exactly K entries, keyed by command
text, in the same relative order as those commands appear in the fixed
list. -/
theorem collect_report_entries (ip username password : String) (b : SwitchBehavior)
    (h : b.connect ip username password = none)
    (hlf : ∀ c ∈ commands, b.loopFault c = none)
    (hk : 1 ≤ commands.countP (fun c => isSucc b.exec c)) :
    (collect_switch_data ip username password b).1 =
      Except.ok (some (commands.filterMap (succEntry b.exec))) ∧
    (commands.filterMap (succEntry b.exec)).length =
      commands.countP (fun c => isSucc b.exec c) ∧
    (commands.filterMap (succEntry b.exec)).map Prod.fst =
      commands.filter (fun c => isSucc b.exec c) := by
  have hlen := filterMap_succEntry_length b.exec commands
  have hne : ¬ (commands.filterMap (succEntry b.exec)).isEmpty := by
    intro he
    rw [List.isEmpty_iff] at he
    rw [he] at hlen
    simp at hlen
    omega
  refine ⟨?_, hlen, filterMap_succEntry_keys b.exec commands⟩
  rw [collect_result_no_fault ip username password b h hlf, if_neg hne]

/-- C1 witness: a run in which exactly the first and third commands
succeed (the third with a stderr warning) yields the two-entry report in
list order. -/
theorem collect_report_entries_witness :
    (collect_switch_data "10.0.0.1" "admin" "pw"
        ⟨fun _ _ _ => none,
         fun c => if c = "show version" then ExecOutcome.streams "NXOS 7.0" ""
                  else if c = "show environment" then ExecOutcome.streams "fans ok" "fan 2 absent"
                  else ExecOutcome.fault "timed out",
         fun _ => none⟩).1 =
      Except.ok (some [("show version", "NXOS 7.0"), ("show environment", "fans ok")]) :=
  (collect_report_entries "10.0.0.1" "admin" "pw"
      ⟨fun _ _ _ => none,
       fun c => if c = "show version" then ExecOutcome.streams "NXOS 7.0" ""
                else if c = "show environment" then ExecOutcome.streams "fans ok" "fan 2 absent"
                else ExecOutcome.fault "timed out",
       fun _ => none⟩ rfl (fun _ _ => rfl) (by decide)).1

/-- C5: classification of one executor invocation on an open session:
empty stderr with non-empty stdout is Ok; non-empty stderr with any
stdout is Warning, never Failed, and its stdout is still the recorded
report entry (succEntry is what the collector folds into the report, by
C1); a dispatch/read fault is Failed with the output absent. -/
theorem execute_command_classification (exec : String → ExecOutcome)
    (cmd out err e : String) :
    (exec cmd = ExecOutcome.streams out err → err = "" → out ≠ "" →
      outcomeOf (execute_command ⟨SessState.Open, exec⟩ cmd) = Outcome.Ok ∧
      (execute_command ⟨SessState.Open, exec⟩ cmd).1 = some out) ∧
    (exec cmd = ExecOutcome.streams out err → err ≠ "" →
      outcomeOf (execute_command ⟨SessState.Open, exec⟩ cmd) = Outcome.Warning ∧
      outcomeOf (execute_command ⟨SessState.Open, exec⟩ cmd) ≠ Outcome.Failed ∧
      (execute_command ⟨SessState.Open, exec⟩ cmd).1 = some out ∧
      succEntry exec cmd = some (cmd, out)) ∧
    (exec cmd = ExecOutcome.fault e →
      outcomeOf (execute_command ⟨SessState.Open, exec⟩ cmd) = Outcome.Failed ∧
      (execute_command ⟨SessState.Open, exec⟩ cmd).1 = none) := by
  refine ⟨?_, ?_, ?_⟩
  · intro hs hz _
    simp [execute_command, sshDispatch, hs, hz, outcomeOf]
  · intro hs hz
    simp [execute_command, sshDispatch, hs, hz, outcomeOf, isWarnEvent, succEntry]
  · intro hf
    simp [execute_command, sshDispatch, hf, outcomeOf]

/-- C5 witness: an empty-stderr command classifies Ok, a noisy-stderr
command classifies Warning with its output kept, and a timed-out command
classifies Failed with no output. -/
theorem execute_command_classification_witness :
    (outcomeOf (execute_command
        ⟨SessState.Open, fun _ => ExecOutcome.streams "NXOS 7.0" ""⟩ "show version") =
      Outcome.Ok ∧
     (execute_command ⟨SessState.Open, fun _ => ExecOutcome.streams "NXOS 7.0" ""⟩
        "show version").1 = some "NXOS 7.0") ∧
    (outcomeOf (execute_command
        ⟨SessState.Open, fun _ => ExecOutcome.streams "fans ok" "fan 2 absent"⟩
        "show environment") = Outcome.Warning ∧
     outcomeOf (execute_command
        ⟨SessState.Open, fun _ => ExecOutcome.streams "fans ok" "fan 2 absent"⟩
        "show environment") ≠ Outcome.Failed ∧
     (execute_command ⟨SessState.Open, fun _ => ExecOutcome.streams "fans ok" "fan 2 absent"⟩
        "show environment").1 = some "fans ok" ∧
     succEntry (fun _ => ExecOutcome.streams "fans ok" "fan 2 absent") "show environment" =
       some ("show environment", "fans ok")) ∧
    (outcomeOf (execute_command ⟨SessState.Open, fun _ => ExecOutcome.fault "timed out"⟩
        "show processes cpu history") = Outcome.Failed ∧
     (execute_command ⟨SessState.Open, fun _ => ExecOutcome.fault "timed out"⟩
        "show processes cpu history").1 = none) :=
  ⟨(execute_command_classification (fun _ => ExecOutcome.streams "NXOS 7.0" "")
      "show version" "NXOS 7.0" "" "unused").1 rfl rfl (by decide),
   (execute_command_classification (fun _ => ExecOutcome.streams "fans ok" "fan 2 absent")
      "show environment" "fans ok" "fan 2 absent" "unused").2.1 rfl (by decide),
   (execute_command_classification (fun _ => ExecOutcome.fault "timed out")
      "show processes cpu history" "unused" "unused" "timed out").2.2 rfl⟩

/-- C6 counterexample: two executions of the same command with the same
stdout, one with empty and one with non-empty stderr, classify as Ok and
Warning respectively, yet the executor returns the very same value, so a
caller cannot tell the three outcomes apart from the returned result
alone. -/
theorem execute_result_indistinguishable :
    specOutcome (ExecOutcome.streams "NXOS 7.0" "") = Outcome.Ok ∧
    specOutcome (ExecOutcome.streams "NXOS 7.0" "deprecation notice") = Outcome.Warning ∧
    (execute_command ⟨SessState.Open, fun _ => ExecOutcome.streams "NXOS 7.0" ""⟩
        "show version").1 =
      (execute_command
        ⟨SessState.Open, fun _ => ExecOutcome.streams "NXOS 7.0" "deprecation notice"⟩
        "show version").1 :=
  ⟨by decide, by decide, rfl⟩

/-- C6 (amended: the returned value alone distinguishes only Failed from
success; the Ok/Warning distinction is carried by the logged warning, so
the returned value together with the logging determines all three
outcomes): the executor's observable outcome equals the three-way
specification classification, and its returned value is None exactly in
the Failed case. -/
theorem execute_command_outcome_observable (exec : String → ExecOutcome) (cmd : String) :
    outcomeOf (execute_command ⟨SessState.Open, exec⟩ cmd) = specOutcome (exec cmd) ∧
    ((execute_command ⟨SessState.Open, exec⟩ cmd).1 = none ↔
      specOutcome (exec cmd) = Outcome.Failed) := by
  cases he : exec cmd with
  | streams out err =>
    by_cases hz : err = "" <;>
      simp [execute_command, sshDispatch, he, outcomeOf, specOutcome, isWarnEvent, hz]
  | fault e =>
    simp [execute_command, sshDispatch, he, outcomeOf, specOutcome]

/-- C7: truncation law: if the formatted concatenation of a report fits
in max_chars it is returned unchanged with no marker appended, otherwise
its first max_chars characters are returned with the fixed marker
appended, and in all cases the result length is at most max_chars plus
the marker length. -/
theorem truncate_text_law (report : List (String × String)) (max_chars : Nat) :
    ((formatted_data report).length ≤ max_chars →
      truncate_text (formatted_data report) max_chars = formatted_data report) ∧
    (max_chars < (formatted_data report).length →
      truncate_text (formatted_data report) max_chars =
        String.mk ((formatted_data report).data.take max_chars) ++ trunc_marker) ∧
    (truncate_text (formatted_data report) max_chars).length ≤
      max_chars + trunc_marker.length := by
  refine ⟨?_, ?_, ?_⟩
  · intro hle
    rw [truncate_text, if_neg (by omega)]
  · intro hgt
    rw [truncate_text, if_pos (by omega)]
  · by_cases hgt : (formatted_data report).length > max_chars
    · rw [truncate_text, if_pos hgt, String.length_append]
      have hm : (String.mk ((formatted_data report).data.take max_chars)).length =
          min max_chars (formatted_data report).data.length := by
        show ((formatted_data report).data.take max_chars).length = _
        simp
      omega
    · rw [truncate_text, if_neg hgt]
      omega

/-- C7 witness: a one-entry report is returned unchanged under a large
bound and cut at 5 characters with the marker under a small bound, within
the stated length budget. -/
theorem truncate_text_law_witness :
    ((formatted_data [("show version", "NXOS 7.0")]).length ≤ 1000 ∧
     truncate_text (formatted_data [("show version", "NXOS 7.0")]) 1000 =
       formatted_data [("show version", "NXOS 7.0")]) ∧
    (5 < (formatted_data [("show version", "NXOS 7.0")]).length ∧
     truncate_text (formatted_data [("show version", "NXOS 7.0")]) 5 =
       String.mk ((formatted_data [("show version", "NXOS 7.0")]).data.take 5) ++
         trunc_marker) ∧
    (truncate_text (formatted_data [("show version", "NXOS 7.0")]) 5).length ≤
      5 + trunc_marker.length :=
  ⟨⟨by decide, (truncate_text_law [("show version", "NXOS 7.0")] 1000).1 (by decide)⟩,
   ⟨by decide, (truncate_text_law [("show version", "NXOS 7.0")] 5).2.1 (by decide)⟩,
   (truncate_text_law [("show version", "NXOS 7.0")] 5).2.2⟩

/-- C8: invoking the executor on a session that is not open does not
fabricate a successful result: the dispatch fault of the inactive
transport surfaces as Failed (None) with the logged reason naming the
violated open-session precondition. -/
theorem execute_command_closed_session (sess : Session) (cmd : String)
    (h : sess.state = SessState.Closed) :
    execute_command sess cmd = (none, [Event.cmdErrLog cmd "SSH session not active"]) ∧
    outcomeOf (execute_command sess cmd) = Outcome.Failed := by
  have hd : sshDispatch sess cmd = ExecOutcome.fault "SSH session not active" := by
    unfold sshDispatch
    rw [h]
  constructor
  · unfold execute_command
    rw [hd]
  · unfold outcomeOf execute_command
    rw [hd]

/-- C8 witness: running a command on a closed session yields Failed with
the inactive-session reason, never a fabricated output. -/
theorem execute_command_closed_session_witness :
    execute_command ⟨SessState.Closed, fun _ => ExecOutcome.streams "NXOS 7.0" ""⟩
        "show version" =
      (none, [Event.cmdErrLog "show version" "SSH session not active"]) ∧
    outcomeOf (execute_command ⟨SessState.Closed, fun _ => ExecOutcome.streams "NXOS 7.0" ""⟩
        "show version") = Outcome.Failed :=
  execute_command_closed_session
    ⟨SessState.Closed, fun _ => ExecOutcome.streams "NXOS 7.0" ""⟩ "show version" rfl

theorem runLoop_stderr_agnostic (exec1 exec2 : String → ExecOutcome)
    (lf : String → Option String) (cmds : List String)
    (h : ∀ c, sameStdout (exec1 c) (exec2 c)) :
    (runLoop ⟨SessState.Open, exec1⟩ lf cmds).1 =
      (runLoop ⟨SessState.Open, exec2⟩ lf cmds).1 ∧
    (runLoop ⟨SessState.Open, exec1⟩ lf cmds).2.2 =
      (runLoop ⟨SessState.Open, exec2⟩ lf cmds).2.2 := by
  induction cmds with
  | nil => exact ⟨rfl, rfl⟩
  | cons cmd rest ih =>
    cases hl : lf cmd with
    | some e => simp [runLoop, hl]
    | none =>
      have hs := h cmd
      cases h1 : exec1 cmd with
      | streams o1 e1 =>
        cases h2 : exec2 cmd with
        | streams o2 e2 =>
          rw [h1, h2] at hs
          have ho : o1 = o2 := hs
          subst ho
          have hx1 : (execute_command ⟨SessState.Open, exec1⟩ cmd).1 = some o1 := by
            simp [execute_command, sshDispatch, h1]
          have hx2 : (execute_command ⟨SessState.Open, exec2⟩ cmd).1 = some o1 := by
            simp [execute_command, sshDispatch, h2]
          simp [runLoop, hl, hx1, hx2, ih.1, ih.2]
        | fault e2 =>
          rw [h1, h2] at hs
          simp [sameStdout] at hs
      | fault e1 =>
        cases h2 : exec2 cmd with
        | streams o2 e2 =>
          rw [h1, h2] at hs
          simp [sameStdout] at hs
        | fault e2 =>
          have hx1 : (execute_command ⟨SessState.Open, exec1⟩ cmd).1 = none := by
            simp [execute_command, sshDispatch, h1]
          have hx2 : (execute_command ⟨SessState.Open, exec2⟩ cmd).1 = none := by
            simp [execute_command, sshDispatch, h2]
          simp [runLoop, hl, hx1, hx2, ih.1, ih.2]

/-- C10: the value the executor returns — and hence the collection result
the collector builds from it — does not depend on the remote stderr
stream: two fault-free executions of the same command with the same
stdout return the same string, and two runs whose environments agree on
connect, loop faults, per-command faulting and stdout (stderr free) yield
the same collection result, stderr influencing only logging. -/
theorem stderr_noninterference :
    (∀ (sess1 sess2 : Session) (cmd out err1 err2 : String),
        sshDispatch sess1 cmd = ExecOutcome.streams out err1 →
        sshDispatch sess2 cmd = ExecOutcome.streams out err2 →
        (execute_command sess1 cmd).1 = (execute_command sess2 cmd).1) ∧
    (∀ (ip username password : String) (b1 b2 : SwitchBehavior),
        b1.connect = b2.connect → b1.loopFault = b2.loopFault →
        (∀ c, sameStdout (b1.exec c) (b2.exec c)) →
        (collect_switch_data ip username password b1).1 =
          (collect_switch_data ip username password b2).1) := by
  constructor
  · intro sess1 sess2 cmd out err1 err2 h1 h2
    unfold execute_command
    rw [h1, h2]
  · intro ip username password b1 b2 hconn hlf hs
    cases hcv : b1.connect ip username password with
    | some e =>
      have hcv2 : b2.connect ip username password = some e := by rw [← hconn]; exact hcv
      rw [collect_connect_err_eq ip username password e b1 hcv,
          collect_connect_err_eq ip username password e b2 hcv2]
    | none =>
      have hcv2 : b2.connect ip username password = none := by rw [← hconn]; exact hcv
      have hd := runLoop_stderr_agnostic b1.exec b2.exec b1.loopFault commands hs
      cases hf : (runLoop ⟨SessState.Open, b1.exec⟩ b1.loopFault commands).2.2 with
      | none =>
        have hf2 : (runLoop ⟨SessState.Open, b2.exec⟩ b2.loopFault commands).2.2 = none := by
          rw [← hlf, ← hd.2]
          exact hf
        rw [collect_result_loop_ok ip username password b1 hcv hf,
            collect_result_loop_ok ip username password b2 hcv2 hf2, ← hlf, ← hd.1]
      | some e =>
        have hf2 : (runLoop ⟨SessState.Open, b2.exec⟩ b2.loopFault commands).2.2 = some e := by
          rw [← hlf, ← hd.2]
          exact hf
        rw [collect_result_loop_fault ip username password b1 e hcv hf,
            collect_result_loop_fault ip username password b2 e hcv2 hf2]

/-- C10 witness: varying only the stderr stream of every command changes
neither the executor's returned value nor the collection result. -/
theorem stderr_noninterference_witness :
    (execute_command ⟨SessState.Open, fun _ => ExecOutcome.streams "NXOS 7.0" ""⟩
        "show version").1 =
      (execute_command ⟨SessState.Open, fun _ => ExecOutcome.streams "NXOS 7.0" "warn"⟩
        "show version").1 ∧
    (collect_switch_data "10.0.0.1" "admin" "pw"
        ⟨fun _ _ _ => none, fun _ => ExecOutcome.streams "NXOS 7.0" "", fun _ => none⟩).1 =
      (collect_switch_data "10.0.0.1" "admin" "pw"
        ⟨fun _ _ _ => none, fun _ => ExecOutcome.streams "NXOS 7.0" "warn",
         fun _ => none⟩).1 :=
  ⟨stderr_noninterference.1 ⟨SessState.Open, fun _ => ExecOutcome.streams "NXOS 7.0" ""⟩
      ⟨SessState.Open, fun _ => ExecOutcome.streams "NXOS 7.0" "warn"⟩
      "show version" "NXOS 7.0" "" "warn" rfl rfl,
   stderr_noninterference.2 "10.0.0.1" "admin" "pw"
      ⟨fun _ _ _ => none, fun _ => ExecOutcome.streams "NXOS 7.0" "", fun _ => none⟩
      ⟨fun _ _ _ => none, fun _ => ExecOutcome.streams "NXOS 7.0" "warn", fun _ => none⟩
      rfl rfl (fun _ => by simp [sameStdout])⟩

end Nexus
